import Mathlib

/-!
Shallow embedding of `app/services/pdf_service.py` (class `PDFService`) from the
PDFFusion repository, together with proofs about its behaviour.

External collaborators (PyPDF2, PIL, requests, boto3) are modelled as explicit
environments of pure functions: a byte stream is a list of naturals plus a read
position, the PDF parser is a function from byte content to either a page list
or a parse-error message, HTTP responses and S3 per-attempt outcomes are oracle
functions.  Python float arithmetic in the image-layout computation is modelled
as exact rational arithmetic with `int(.)` (of a nonnegative value) as floor.
-/

namespace PDFFusion

/-- A `BytesIO` object: immutable byte content plus a read position. -/
structure ByteStream where
  content : List Nat
  pos : Nat
deriving DecidableEq

/-- Model of the external `PyPDF2` library: `parse` is what `PdfReader(stream)`
does to the full byte content of a stream rewound to its start (the page list on
success, the exception text on failure), and `readEnd` is the stream position a
successful or failed read leaves behind.  Both are functions of the content
only: `PdfReader` never mutates the bytes it reads. -/
structure PdfEnv where
  parse : List Nat → Except String (List Nat)
  readEnd : List Nat → Nat

/-- Embedding of `PDFService.validate_pdf` (pdf_service.py lines 107-114):
`pdf_data.seek(0)` rewinds the stream, so the `PdfReader` constructed next
consumes the full byte content no matter where the stream was positioned
beforehand — which is why `parse` is applied to `pdf_data.content` and the
verdict cannot depend on `pdf_data.pos`.  The result is the post-read stream
(same content, position wherever the read left it) together with the
`(is_valid, error_message)` pair the Python function returns. -/
def validate_pdf (env : PdfEnv) (pdf_data : ByteStream) : ByteStream × Bool × String :=
  match env.parse pdf_data.content with
  | .ok _ => ({ content := pdf_data.content, pos := env.readEnd pdf_data.content }, true, "")
  | .error e => ({ content := pdf_data.content, pos := env.readEnd pdf_data.content }, false, e)

/-- The page list `PyPDF2` yields for the content of a stream (empty for an invalid
stream, which `merge_pdfs` never appends). -/
def docPages (env : PdfEnv) (s : ByteStream) : List Nat :=
  match env.parse s.content with
  | .ok pages => pages
  | .error _ => []

/-- Concatenation, in input order, of the pages of all given streams. -/
def allPages (env : PdfEnv) : List ByteStream → List Nat
  | [] => []
  | s :: rest => docPages env s ++ allPages env rest

/-- The loop body of `merge_pdfs` (pdf_service.py lines 170-184): rewind the
candidate (`pdf_file.seek(0)`), re-validate it, skip it if invalid and
otherwise let `merger.append` add its pages after the pages collected so
far. -/
def mergeStep (env : PdfEnv) (acc : List Nat) (pdf_file : ByteStream) : List Nat :=
  let v := validate_pdf env { content := pdf_file.content, pos := 0 }
  if v.2.1 then acc ++ docPages env pdf_file else acc

/-- Embedding of `PDFService.merge_pdfs` (pdf_service.py lines 160-197): `None` for an empty
input list; otherwise every candidate is rewound and re-validated, invalid
candidates are skipped, valid ones have their pages appended in order by
`merger.append`; if the merger ends up with zero pages the result is `None`,
otherwise `merger.write` produces the output.  The merged document is
represented by its page sequence. -/
def merge_pdfs (env : PdfEnv) (pdf_files : List ByteStream) : Option (List Nat) :=
  if pdf_files.isEmpty then none
  else
    let pages := pdf_files.foldl (mergeStep env) []
    if pages.isEmpty then none else some pages

/-- A4 canvas width in pixels at 300 DPI (pdf_service.py line 60). -/
def A4_WIDTH : Nat := 2480

/-- A4 canvas height in pixels at 300 DPI (pdf_service.py line 61). -/
def A4_HEIGHT : Nat := 3508

/-- Scaled dimensions computed by `convert_image_to_pdf` (pdf_service.py lines
63-79).  `aspect_ratio = img_width / img_height`, so `aspect_ratio > 1` is
`h < w`; `int(new_width / aspect_ratio)` is `nw * h / w` rounded down, i.e.
natural division, and symmetrically for the other branch. -/
def fitDims (w h : Nat) : Nat × Nat :=
  if h < w then
    let nw := min A4_WIDTH w
    let nh := nw * h / w
    if A4_HEIGHT < nh then (A4_HEIGHT * w / h, A4_HEIGHT) else (nw, nh)
  else
    let nh := min A4_HEIGHT h
    let nw := nh * w / h
    if A4_WIDTH < nw then (A4_WIDTH, A4_WIDTH * h / w) else (nw, nh)

/-- Centering offsets (pdf_service.py lines 89-90): `(A4 − new) // 2` on Python
integers, i.e. floor division on `Int`. -/
def pasteOffsets (nw nh : Nat) : Int × Int :=
  (((A4_WIDTH : Int) - (nw : Int)) / 2, ((A4_HEIGHT : Int) - (nh : Int)) / 2)

/-- Model of the external `PIL` library: `decode` recovers the
`(width, height)` of an image or fails (covering every decode/convert error the Python
`except` swallows), `encodePdf` stands for resize + centred paste +
`save(format="PDF")`, abstracting the produced bytes. -/
structure ImageEnv where
  decode : List Nat → Option (Nat × Nat)
  encodePdf : List Nat → Nat × Nat → Int × Int → List Nat

/-- Embedding of `PDFService.convert_image_to_pdf` (pdf_service.py lines 45-105). -/
def convert_image_to_pdf (env : ImageEnv) (image_data : ByteStream) : Option ByteStream :=
  match env.decode image_data.content with
  | none => none
  | some (w, h) =>
    let dims := fitDims w h
    some { content := env.encodePdf image_data.content dims (pasteOffsets dims.1 dims.2)
           pos := 0 }

/-- Modelled from the spec: the fit rule of section 4.2 step 2, written with the
exact rational aspect ratio `r = width/height` and floor for the integer
conversions, to be compared with the source-derived `fitDims`.  "if `r > 1`
(landscape), scale width to `min(canvasWidth, width)` then derive height from
`r`, clamping height to `canvasHeight` and re-deriving width if needed;
symmetric rule for `r ≤ 1` driven by height first." -/
def specFitDims (w h : Nat) : Nat × Nat :=
  let r : ℚ := (w : ℚ) / (h : ℚ)
  if 1 < r then
    let nw : Nat := min A4_WIDTH w
    let nh : Nat := (⌊(nw : ℚ) / r⌋).toNat
    if A4_HEIGHT < nh then ((⌊(A4_HEIGHT : ℚ) * r⌋).toNat, A4_HEIGHT) else (nw, nh)
  else
    let nh : Nat := min A4_HEIGHT h
    let nw : Nat := (⌊(nh : ℚ) * r⌋).toNat
    if A4_WIDTH < nw then (A4_WIDTH, (⌊(A4_WIDTH : ℚ) / r⌋).toNat) else (nw, nh)

/-- Contiguous-substring test on character lists (the Python `in` operator on `str`). -/
def containsSub (needle : List Char) : List Char → Bool
  | [] => needle.isEmpty
  | c :: rest => needle.isPrefixOf (c :: rest) || containsSub needle rest

/-- Result of `requests.get(url)`: either a transport-level exception
(`requests.exceptions.RequestException`) or a response carrying a status code,
a declared `content-type` header and a body. -/
inductive HttpResult where
  | transportError (msg : String)
  | response (status : Nat) (contentType : String) (body : List Nat)
deriving DecidableEq

/-- Model of the external `requests` library. -/
structure HttpEnv where
  get : String → HttpResult

/-- The image content types accepted by `download_and_convert_file`
(pdf_service.py line 138). -/
def imageTypes : List String := ["image/jpeg", "image/png", "image/gif"]

/-- The Python `str.lower()` function on one character (ASCII range, which covers every
content-type header this service distinguishes). -/
def lowerChar (c : Char) : Char :=
  if 65 ≤ c.toNat ∧ c.toNat ≤ 90 then Char.ofNat (c.toNat + 32) else c

/-- The Python expression `content_type.lower()` as a character list. -/
def asciiLower (s : String) : List Char :=
  s.data.map lowerChar

/-- Embedding of `PDFService.download_and_convert_file` (pdf_service.py lines 116-158).
`response.raise_for_status()` raises `HTTPError` exactly for status codes
400-599, and that exception (a `RequestException`) is caught and turned into
`None`; the content-type checks are Python substring tests on the lowercased
header value, tried in order: PDF first, then the image types, else
unsupported. -/
def download_and_convert_file (henv : HttpEnv) (penv : PdfEnv) (ienv : ImageEnv)
    (url : String) : Option ByteStream :=
  match henv.get url with
  | .transportError _ => none
  | .response status ct body =>
    if 400 ≤ status ∧ status < 600 then none
    else
      let content_type := asciiLower ct
      let file_data : ByteStream := { content := body, pos := 0 }
      if containsSub "application/pdf".data content_type then
        let v := validate_pdf penv file_data
        if v.2.1 then some v.1 else none
      else if imageTypes.any (fun t => containsSub t.data content_type) then
        convert_image_to_pdf ienv file_data
      else none

/-- Outcome of one `s3_client.upload_fileobj` call: success, a `ClientError`
with its error code and message, or any other exception. -/
inductive S3Outcome where
  | success
  | clientError (code : String) (message : String)
  | exception (msg : String)
deriving DecidableEq

/-- Model of the external S3 client: the outcome of the transmission made on a
given (0-based) attempt index. -/
structure S3Env where
  outcome : Nat → S3Outcome

/-- Observable interactions of `upload_to_s3` with the stream and the clock:
rewinding the stream to its start (`file_data.seek(0)`), transmitting on a
given 0-based attempt index, and `time.sleep(secs)`. -/
inductive UploadEvent where
  | rewind
  | transmit (attempt : Nat)
  | wait (secs : Nat)
deriving DecidableEq

/-- Constant `max_retries = 3` (pdf_service.py line 204). -/
def max_retries : Nat := 3

/-- Constant `retry_delay = 1` second (pdf_service.py line 205). -/
def retry_delay : Nat := 1

/-- The `for attempt in range(max_retries)` loop of `upload_to_s3`
(pdf_service.py lines 207-250), with `fuel` iterations left and `attempt` the
current index.  Each iteration seeks to the start and transmits; on success the
key is returned; a `RequestTimeTooSkewed` `ClientError` sleeps
`retry_delay * (attempt + 1)` and continues; any other failure returns `None`
when `attempt == max_retries - 1` and otherwise falls through to the same
`retry_delay * (attempt + 1)` sleep at the bottom of the loop; an exhausted
loop returns `None`. -/
def uploadLoop (env : S3Env) (key : String) : Nat → Nat → List UploadEvent × Option String
  | 0, _ => ([], none)
  | fuel + 1, attempt =>
    match env.outcome attempt with
    | .success => ([.rewind, .transmit attempt], some key)
    | .clientError code _ =>
      if code = "RequestTimeTooSkewed" then
        let r := uploadLoop env key fuel (attempt + 1)
        (.rewind :: .transmit attempt :: .wait (retry_delay * (attempt + 1)) :: r.1, r.2)
      else if attempt = max_retries - 1 then
        ([.rewind, .transmit attempt], none)
      else
        let r := uploadLoop env key fuel (attempt + 1)
        (.rewind :: .transmit attempt :: .wait (retry_delay * (attempt + 1)) :: r.1, r.2)
    | .exception _ =>
      if attempt = max_retries - 1 then
        ([.rewind, .transmit attempt], none)
      else
        let r := uploadLoop env key fuel (attempt + 1)
        (.rewind :: .transmit attempt :: .wait (retry_delay * (attempt + 1)) :: r.1, r.2)

/-- Embedding of `PDFService.upload_to_s3` (pdf_service.py lines 199-250): the trace of
stream/clock interactions plus the returned value.  `file_data` and `bucket`
do not influence the modelled outcome: the state of the stream is abstracted into
the `rewind` events of the trace. -/
def upload_to_s3 (env : S3Env) (file_data : List Nat) (bucket key : String) :
    List UploadEvent × Option String :=
  uploadLoop env key max_retries 0

/-- Number of transmission attempts recorded in a trace. -/
def numTransmits : List UploadEvent → Nat
  | [] => 0
  | .transmit _ :: rest => numTransmits rest + 1
  | _ :: rest => numTransmits rest

/-- Grammar of well-formed upload traces starting at attempt index `i`: a
rewind immediately followed by a transmission of attempt `i`, after which the
trace either ends (success, or final-attempt failure), or records a wait of
exactly `retry_delay * (i + 1)` seconds and then either ends (skew failure on
the final attempt) or continues as a trace starting at attempt `i + 1`. -/
def traceOk (i : Nat) : List UploadEvent → Bool
  | [.rewind, .transmit j] => j == i
  | .rewind :: .transmit j :: .wait d :: rest =>
    j == i && d == retry_delay * (i + 1) && (rest.isEmpty || traceOk (i + 1) rest)
  | _ => false

/-- A wall-clock instant as `datetime.now()` exposes it, at second
resolution. -/
structure DateTime where
  year : Nat
  month : Nat
  day : Nat
  hour : Nat
  minute : Nat
  second : Nat
deriving DecidableEq

/-- Two-digit zero-padded `strftime` field (`%m`, `%d`, `%H`, `%M`, `%S`). -/
def pad2 (n : Nat) : String :=
  if n < 10 then "0" ++ toString n else toString n

/-- Embedding of `datetime.strftime("%Y%m%d_%H%M%S")` (pdf_service.py line 276); `%Y` is
the decimal digits of the year (unpadded on glibc, four digits for any year
1000-9999). -/
def formatTimestamp (t : DateTime) : String :=
  toString t.year ++ pad2 t.month ++ pad2 t.day ++ "_" ++
    pad2 t.hour ++ pad2 t.minute ++ pad2 t.second

/-- The bucket-name settings read by `process_and_merge` (config.py). -/
structure Settings where
  PROD_BUCKET_NAME : String
  STAGING_BUCKET_NAME : String

/-- Everything external that one `process_and_merge` run interacts with. -/
structure PipelineEnv where
  http : HttpEnv
  pdf : PdfEnv
  img : ImageEnv
  s3 : S3Env
  settings : Settings
  now : DateTime

/-- The wrapper every error raised out of `process_and_merge` receives
(pdf_service.py line 290): `str(e)` of the inner `ValueError` is its message. -/
def errWrap (msg : String) : String :=
  "Failed to process and merge PDFs: " ++ msg

/-- The S3 key built at pdf_service.py line 277. -/
def s3KeyFor (lead_id : String) (t : DateTime) : String :=
  lead_id ++ "/merged_pdf/merged_document_" ++ formatTimestamp t ++ ".pdf"

/-- The download-and-collect loop of `process_and_merge` (pdf_service.py lines
258-262): the surviving streams, in original URL order. -/
def pdfFilesOf (env : PipelineEnv) (urls : List String) : List ByteStream :=
  urls.filterMap (download_and_convert_file env.http env.pdf env.img)

/-- Bucket selection (pdf_service.py line 273). -/
def bucketOf (env : PipelineEnv) (is_prod : Bool) : String :=
  if is_prod then env.settings.PROD_BUCKET_NAME else env.settings.STAGING_BUCKET_NAME

/-- Embedding of `PDFService.process_and_merge` (pdf_service.py lines 252-290): download and
convert every URL, keeping the successes in order; raise if none survive; merge
and raise if the merge yields nothing; build the timestamped key, upload with
retries and raise if the upload returns nothing; otherwise return the key.
Every raise is a `ValueError` re-raised by the outer handler with the
`errWrap` message; `Except.error` carries the message of the raised exception. -/
def process_and_merge (env : PipelineEnv) (urls : List String) (lead_id : String)
    (is_prod : Bool) : Except String String :=
  let pdf_files := pdfFilesOf env urls
  if pdf_files.isEmpty then .error (errWrap "No valid files could be processed")
  else
    match merge_pdfs env.pdf pdf_files with
    | none => .error (errWrap "Failed to merge PDFs")
    | some merged_pdf =>
      let bucket := bucketOf env is_prod
      let s3_key := s3KeyFor lead_id env.now
      match (upload_to_s3 env.s3 merged_pdf bucket s3_key).2 with
      | none => .error (errWrap "Failed to upload to S3 after multiple attempts")
      | some _ => .ok s3_key

/-- Byte content of a minimal one-page PDF ("%PDF"). -/
def pdfBytes : List Nat := [37, 80, 68, 70]

/-- Byte content of a two-page PDF. -/
def pdfBytes2 : List Nat := [37, 80, 68, 70, 50]

/-- A concrete parser oracle: `pdfBytes` is a one-page document (page `1`),
`pdfBytes2` a two-page document (pages `2` and `3`), everything else fails to
parse. -/
def envPdfOk : PdfEnv where
  parse := fun c =>
    if c = pdfBytes then .ok [1]
    else if c = pdfBytes2 then .ok [2, 3]
    else .error "EOF marker not found"
  readEnd := fun _ => 0

/-- A parser oracle under which every stream is a structurally valid PDF with
an empty page tree: the PyPDF2 `PdfReader` constructor only reads the trailer and
cross-reference table, so a well-formed PDF whose page tree has `/Count 0`
constructs a reader successfully (`validate_pdf` returns `True`) yet
contributes zero pages to a merger. -/
def envZeroPage : PdfEnv where
  parse := fun _ => .ok []
  readEnd := fun _ => 0

/-- A stream holding the one-page document. -/
def streamA : ByteStream := { content := pdfBytes, pos := 0 }

/-- A stream holding the two-page document. -/
def streamB : ByteStream := { content := pdfBytes2, pos := 0 }

/-- HTTP oracle: every URL yields `200 OK`, `application/pdf`, a valid body. -/
def envHttpOk : HttpEnv where
  get := fun _ => .response 200 "application/pdf" pdfBytes

/-- HTTP oracle returning `300 Multiple Choices` — not a success status — that
nonetheless declares `application/pdf` and carries a parseable PDF body. -/
def envHttp300 : HttpEnv where
  get := fun _ => .response 300 "application/pdf" pdfBytes

/-- HTTP oracle: every request fails at the transport level. -/
def envHttpDown : HttpEnv where
  get := fun _ => .transportError "connection refused"

/-- PIL oracle that cannot decode anything. -/
def envImgNone : ImageEnv where
  decode := fun _ => none
  encodePdf := fun _ _ _ => []

/-- S3 oracle: every attempt succeeds. -/
def envS3Ok : S3Env where
  outcome := fun _ => .success

/-- S3 oracle: every attempt fails with a non-skew `ClientError`. -/
def envS3Down : S3Env where
  outcome := fun _ => .clientError "InternalError" "We encountered an internal error"

/-- S3 oracle: clock-skew failures on the first two attempts, then success. -/
def envS3Flaky : S3Env where
  outcome := fun n => if n < 2 then .clientError "RequestTimeTooSkewed" "skew" else .success

/-- A fixed wall-clock instant. -/
def nowX : DateTime :=
  { year := 2026, month := 1, day := 2, hour := 3, minute := 4, second := 5 }

/-- Fixed bucket settings. -/
def bucketsX : Settings :=
  { PROD_BUCKET_NAME := "prod-bucket", STAGING_BUCKET_NAME := "stage-bucket" }

/-- A pipeline environment in which everything succeeds. -/
def envPipeOk : PipelineEnv :=
  { http := envHttpOk, pdf := envPdfOk, img := envImgNone, s3 := envS3Ok,
    settings := bucketsX, now := nowX }

/-- Pipeline environment whose every download fails. -/
def envPipeNoFiles : PipelineEnv := { envPipeOk with http := envHttpDown }

/-- Pipeline environment whose every upload attempt fails. -/
def envPipeNoUpload : PipelineEnv := { envPipeOk with s3 := envS3Down }

/-- Pipeline environment in which every stream parses as a zero-page PDF. -/
def envPipeZeroPage : PipelineEnv := { envPipeOk with pdf := envZeroPage }

/-- Number of decimal digits in the representation `Nat.repr` prints. -/
def digitsLen (n : Nat) : Nat :=
  if _h : n < 10 then 1 else digitsLen (n / 10) + 1
decreasing_by exact Nat.div_lt_self (by omega) (by omega)

/-! ### Helper lemmas: validation and merging -/

theorem validate_pdf_verdict (env : PdfEnv) (s : ByteStream) :
    (validate_pdf env s).2 = (validate_pdf env { content := s.content, pos := 0 }).2 := rfl

theorem validate_pdf_true_iff (env : PdfEnv) (s : ByteStream) :
    (validate_pdf env s).2.1 = true ↔ (env.parse s.content).isOk = true := by
  unfold validate_pdf
  cases hp : env.parse s.content <;> simp [hp, Except.isOk, Except.toBool]

theorem docPages_of_invalid (env : PdfEnv) (s : ByteStream)
    (h : (validate_pdf env s).2.1 = false) : docPages env s = [] := by
  unfold validate_pdf at h
  unfold docPages
  cases hp : env.parse s.content with
  | ok pages => rw [hp] at h; simp at h
  | error e => rfl

theorem foldl_mergeStep (env : PdfEnv) :
    ∀ (l : List ByteStream) (acc : List Nat),
      l.foldl (mergeStep env) acc = acc ++ allPages env l := by
  intro l
  induction l with
  | nil => intro acc; simp [allPages]
  | cons s rest ih =>
    intro acc
    rw [List.foldl_cons, ih (mergeStep env acc s)]
    cases hv : (validate_pdf env { content := s.content, pos := 0 }).2.1 with
    | false =>
      have hz : docPages env s = [] :=
        docPages_of_invalid env s (by rw [validate_pdf_verdict]; exact hv)
      simp [mergeStep, hv, hz, allPages]
    | true =>
      simp [mergeStep, hv, allPages]

theorem allPages_filter (env : PdfEnv) (l : List ByteStream) :
    allPages env (l.filter fun s => (validate_pdf env s).2.1) = allPages env l := by
  induction l with
  | nil => rfl
  | cons s rest ih =>
    cases hv : (validate_pdf env s).2.1 with
    | true => simp [List.filter_cons, hv, allPages, ih]
    | false => simp [List.filter_cons, hv, allPages, ih, docPages_of_invalid env s hv]

theorem allPages_length (env : PdfEnv) (l : List ByteStream) :
    (allPages env l).length = (l.map fun s => (docPages env s).length).sum := by
  induction l with
  | nil => rfl
  | cons s rest ih => simp [allPages, ih]

theorem merge_pdfs_eq (env : PdfEnv) (l : List ByteStream) :
    merge_pdfs env l =
      if l.isEmpty then none
      else if (allPages env l).isEmpty then none else some (allPages env l) := by
  unfold merge_pdfs
  rw [foldl_mergeStep env l []]
  simp only [List.nil_append]

/-! ### Helper lemmas: the upload retry loop -/

theorem uploadLoop_numTransmits (env : S3Env) (key : String) :
    ∀ (fuel attempt : Nat), numTransmits (uploadLoop env key fuel attempt).1 ≤ fuel := by
  intro fuel
  induction fuel with
  | zero => intro a; simp [uploadLoop, numTransmits]
  | succ f ih =>
    intro a
    unfold uploadLoop
    cases ho : env.outcome a with
    | success => simp [numTransmits]
    | clientError code msg =>
      by_cases hc : code = "RequestTimeTooSkewed"
      · simp only [hc, if_true, numTransmits]
        have := ih (a + 1)
        omega
      · by_cases ha : a = max_retries - 1
        · simp only [hc, ha, if_false, if_true, numTransmits]
          omega
        · simp only [hc, ha, if_false, numTransmits]
          have := ih (a + 1)
          omega
    | exception msg =>
      by_cases ha : a = max_retries - 1
      · simp only [ha, if_true, numTransmits]
        omega
      · simp only [ha, if_false, numTransmits]
        have := ih (a + 1)
        omega

theorem uploadLoop_traceOk (env : S3Env) (key : String) :
    ∀ (fuel attempt : Nat), 0 < fuel →
      traceOk attempt (uploadLoop env key fuel attempt).1 = true := by
  intro fuel
  induction fuel with
  | zero => intro a h; omega
  | succ f ih =>
    intro a _
    unfold uploadLoop
    cases ho : env.outcome a with
    | success => simp [traceOk]
    | clientError code msg =>
      by_cases hc : code = "RequestTimeTooSkewed"
      · simp only [hc, if_true]
        cases f with
        | zero => simp [uploadLoop, traceOk]
        | succ g =>
          have ht := ih (a + 1) (by omega)
          simp [traceOk, ht]
      · by_cases ha : a = max_retries - 1
        · simp [hc, ha, traceOk]
        · simp only [hc, ha, if_false]
          cases f with
          | zero => simp [uploadLoop, traceOk]
          | succ g =>
            have ht := ih (a + 1) (by omega)
            simp [traceOk, ht]
    | exception msg =>
      by_cases ha : a = max_retries - 1
      · simp [ha, traceOk]
      · simp only [ha, if_false]
        cases f with
        | zero => simp [uploadLoop, traceOk]
        | succ g =>
          have ht := ih (a + 1) (by omega)
          simp [traceOk, ht]

theorem uploadLoop_none_iff (env : S3Env) (key : String) :
    ∀ (fuel attempt : Nat), attempt + fuel ≤ max_retries →
      ((uploadLoop env key fuel attempt).2 = none ↔
        ∀ j, attempt ≤ j → j < attempt + fuel → env.outcome j ≠ .success) := by
  intro fuel
  induction fuel with
  | zero =>
    intro a _
    simp only [uploadLoop]
    constructor
    · intro _ j h1 h2
      exact absurd h2 (by omega)
    · intro _
      trivial
  | succ f ih =>
    intro a hle
    unfold uploadLoop
    cases ho : env.outcome a with
    | success =>
      simp only [Option.some_ne_none, false_iff]
      intro hall
      exact hall a (Nat.le_refl a) (by omega) ho
    | clientError code msg =>
      by_cases hc : code = "RequestTimeTooSkewed"
      · simp only [hc, if_true]
        rw [ih (a + 1) (by omega)]
        constructor
        · intro hall j h1 h2
          by_cases hj : j = a
          · subst hj
            rw [ho]
            simp
          · exact hall j (by omega) (by omega)
        · intro hall j h1 h2
          exact hall j (by omega) (by omega)
      · by_cases ha : a = max_retries - 1
        · have ha' : a = 2 := by simpa [max_retries] using ha
          have hf : f = 0 := by
            simp only [max_retries] at hle
            omega
          subst ha' hf
          dsimp only
          rw [if_neg hc, if_pos ha]
          constructor
          · intro _ j h1 h2
            have hj : j = 2 := by omega
            subst hj
            rw [ho]
            simp
          · intro _
            rfl
        · simp only [hc, ha, if_false]
          rw [ih (a + 1) (by omega)]
          constructor
          · intro hall j h1 h2
            by_cases hj : j = a
            · subst hj
              rw [ho]
              simp
            · exact hall j (by omega) (by omega)
          · intro hall j h1 h2
            exact hall j (by omega) (by omega)
    | exception msg =>
      by_cases ha : a = max_retries - 1
      · have ha' : a = 2 := by simpa [max_retries] using ha
        have hf : f = 0 := by
          simp only [max_retries] at hle
          omega
        subst ha' hf
        dsimp only
        rw [if_pos ha]
        constructor
        · intro _ j h1 h2
          have hj : j = 2 := by omega
          subst hj
          rw [ho]
          simp
        · intro _
          rfl
      · simp only [ha, if_false]
        rw [ih (a + 1) (by omega)]
        constructor
        · intro hall j h1 h2
          by_cases hj : j = a
          · subst hj
            rw [ho]
            simp
          · exact hall j (by omega) (by omega)
        · intro hall j h1 h2
          exact hall j (by omega) (by omega)

theorem uploadLoop_key (env : S3Env) (key : String) :
    ∀ (fuel attempt : Nat) (k : String),
      (uploadLoop env key fuel attempt).2 = some k → k = key := by
  intro fuel
  induction fuel with
  | zero => intro a k h; simp [uploadLoop] at h
  | succ f ih =>
    intro a k h
    unfold uploadLoop at h
    cases ho : env.outcome a with
    | success =>
      simp [ho] at h
      exact h.symm
    | clientError code msg =>
      simp only [ho] at h
      by_cases hc : code = "RequestTimeTooSkewed"
      · rw [if_pos hc] at h
        exact ih (a + 1) k h
      · rw [if_neg hc] at h
        by_cases ha : a = max_retries - 1
        · rw [if_pos ha] at h
          simp at h
        · rw [if_neg ha] at h
          exact ih (a + 1) k h
    | exception msg =>
      simp only [ho] at h
      by_cases ha : a = max_retries - 1
      · rw [if_pos ha] at h
        simp at h
      · rw [if_neg ha] at h
        exact ih (a + 1) k h

/-! ### Helper lemmas: decimal digit counts for `strftime` fields -/

theorem digitsLen_of_lt (n : Nat) (h : n < 10) : digitsLen n = 1 := by
  unfold digitsLen
  rw [dif_pos h]

theorem digitsLen_of_le (n : Nat) (h : 10 ≤ n) : digitsLen n = digitsLen (n / 10) + 1 := by
  conv_lhs => rw [digitsLen]
  rw [dif_neg (by omega)]

theorem toDigitsCore_digitsLen :
    ∀ (f n : Nat) (ds : List Char), 0 < f → n < 10 ^ f →
      (Nat.toDigitsCore 10 f n ds).length = ds.length + digitsLen n := by
  intro f
  induction f with
  | zero => intro n ds h; omega
  | succ f ih =>
    intro n ds _ hlt
    unfold Nat.toDigitsCore
    by_cases h10 : n / 10 = 0
    · rw [if_pos h10]
      have hn : n < 10 := by omega
      simp [digitsLen_of_lt n hn]
    · rw [if_neg h10]
      have hn10 : 10 ≤ n := by omega
      have hf : 0 < f := by
        rcases Nat.eq_zero_or_pos f with hf0 | hf0
        · subst hf0
          simp at hlt
          omega
        · exact hf0
      have hlt' : n / 10 < 10 ^ f := by
        rw [Nat.div_lt_iff_lt_mul (by omega : 0 < 10)]
        calc n < 10 ^ (f + 1) := hlt
          _ = 10 ^ f * 10 := by ring
      rw [ih (n / 10) (Nat.digitChar (n % 10) :: ds) hf hlt']
      rw [digitsLen_of_le n hn10]
      simp
      omega

theorem repr_length_eq_digitsLen (n : Nat) : (Nat.repr n).length = digitsLen n := by
  have hfuel : n < 10 ^ (n + 1) := by
    calc n < 10 ^ n := Nat.lt_pow_self (by omega) n
      _ ≤ 10 ^ (n + 1) := Nat.pow_le_pow_right (by omega) (by omega)
  have h := toDigitsCore_digitsLen (n + 1) n [] (by omega) hfuel
  unfold Nat.repr Nat.toDigits
  simpa [List.asString, String.length] using h

theorem toString_nat_length (n : Nat) : (toString n).length = digitsLen n :=
  repr_length_eq_digitsLen n

theorem toString_length_four (n : Nat) (h1 : 1000 ≤ n) (h2 : n < 10000) :
    (toString n).length = 4 := by
  rw [toString_nat_length]
  rw [digitsLen_of_le n (by omega)]
  rw [digitsLen_of_le (n / 10) (by omega)]
  rw [digitsLen_of_le (n / 10 / 10) (by omega)]
  rw [digitsLen_of_lt (n / 10 / 10 / 10) (by omega)]

theorem pad2_length (n : Nat) (h : n < 100) : (pad2 n).length = 2 := by
  unfold pad2
  by_cases h10 : n < 10
  · rw [if_pos h10]
    rw [String.length_append, toString_nat_length, digitsLen_of_lt n h10]
    rfl
  · rw [if_neg h10]
    rw [toString_nat_length, digitsLen_of_le n (by omega),
      digitsLen_of_lt (n / 10) (by omega)]

theorem formatTimestamp_length (t : DateTime)
    (hy1 : 1000 ≤ t.year) (hy2 : t.year < 10000) (hmo : t.month < 100)
    (hd : t.day < 100) (hh : t.hour < 100) (hmi : t.minute < 100)
    (hs : t.second < 100) : (formatTimestamp t).length = 15 := by
  unfold formatTimestamp
  rw [String.length_append, String.length_append, String.length_append,
    String.length_append, String.length_append, String.length_append]
  rw [toString_length_four t.year hy1 hy2, pad2_length t.month hmo,
    pad2_length t.day hd, pad2_length t.hour hh, pad2_length t.minute hmi,
    pad2_length t.second hs]
  rfl

/-! ### Helper lemmas: image layout -/

theorem fitDims_bounds (w h : Nat) (hw : 1 ≤ w) (hh : 1 ≤ h) :
    (fitDims w h).1 ≤ A4_WIDTH ∧ (fitDims w h).2 ≤ A4_HEIGHT := by
  unfold fitDims A4_WIDTH A4_HEIGHT
  by_cases hlt : h < w
  · rw [if_pos hlt]
    have hnw2480 : min 2480 w ≤ 2480 := min_le_left _ _
    have hnh : min 2480 w * h / w ≤ min 2480 w := by
      have h1 : min 2480 w * h ≤ min 2480 w * w :=
        Nat.mul_le_mul_left (min 2480 w) (le_of_lt hlt)
      have h2 : min 2480 w * h / w ≤ min 2480 w * w / w := Nat.div_le_div_right h1
      rwa [Nat.mul_div_cancel (min 2480 w) (by omega : 0 < w)] at h2
    rw [if_neg (by omega : ¬ 3508 < min 2480 w * h / w)]
    exact ⟨hnw2480, by omega⟩
  · rw [if_neg hlt]
    have hnh3508 : min 3508 h ≤ 3508 := min_le_left _ _
    by_cases hclamp : 2480 < min 3508 h * w / h
    · rw [if_pos hclamp]
      refine ⟨le_refl _, ?_⟩
      have hq : min 3508 h * w / h * h ≤ min 3508 h * w := Nat.div_mul_le_self _ _
      have h1 : 2481 * h ≤ min 3508 h * w / h * h :=
        Nat.mul_le_mul_right h (by omega)
      have h2 : min 3508 h * w ≤ 3508 * w := Nat.mul_le_mul_right w hnh3508
      have h3 : 2481 * h ≤ 3508 * w := le_trans (le_trans h1 hq) h2
      have h5 : 2480 * h / w < 3509 := by
        rw [Nat.div_lt_iff_lt_mul (by omega : 0 < w)]
        omega
      omega
    · rw [if_neg hclamp]
      exact ⟨by omega, hnh3508⟩

theorem floorToNat_nat_div (a b : Nat) (hb : 0 < b) :
    (⌊(a : ℚ) / (b : ℚ)⌋).toNat = a / b := by
  rw [Int.floor_toNat, Nat.floor_div_eq_div]

theorem specFitDims_eq_fitDims (w h : Nat) (hw : 1 ≤ w) (hh : 1 ≤ h) :
    specFitDims w h = fitDims w h := by
  have hw0 : (0 : ℚ) < (w : ℚ) := by exact_mod_cast hw
  have hh0 : (0 : ℚ) < (h : ℚ) := by exact_mod_cast hh
  have hbranch : (1 < (w : ℚ) / (h : ℚ)) ↔ h < w := by
    rw [one_lt_div hh0]
    exact_mod_cast Iff.rfl
  have e1 : ∀ a : Nat, (⌊(a : ℚ) / ((w : ℚ) / (h : ℚ))⌋).toNat = a * h / w := by
    intro a
    rw [div_div_eq_mul_div]
    have hcast : (a : ℚ) * (h : ℚ) = ((a * h : ℕ) : ℚ) := by push_cast; ring
    rw [hcast, floorToNat_nat_div (a * h) w (by omega)]
  have e2 : ∀ a : Nat, (⌊(a : ℚ) * ((w : ℚ) / (h : ℚ))⌋).toNat = a * w / h := by
    intro a
    rw [← mul_div_assoc]
    have hcast : (a : ℚ) * (w : ℚ) = ((a * w : ℕ) : ℚ) := by push_cast; ring
    rw [hcast, floorToNat_nat_div (a * w) h (by omega)]
  unfold specFitDims fitDims A4_WIDTH A4_HEIGHT
  simp only [hbranch]
  by_cases hlt : h < w
  · rw [if_pos hlt, if_pos hlt]
    rw [e1 (min 2480 w), e2 3508]
  · rw [if_neg hlt, if_neg hlt]
    rw [e2 (min 3508 h), e1 2480]

/-! ### Claim C1: order-preserving concatenation -/

/-- C1 (counterexample): a non-empty input list whose single stream validates
as a PDF — `envZeroPage` models PyPDF2 accepting a structurally well-formed PDF
whose page tree is empty, since the `PdfReader` constructor only reads the
trailer and cross-reference table — yet `merge_pdfs` returns no merged
document at all (it hits the `len(merger.pages) == 0` guard), so the claimed
conclusion about the page sequence of the returned document fails at this input. -/
theorem merge_concat_counterexample :
    (validate_pdf envZeroPage streamA).2.1 = true ∧
    merge_pdfs envZeroPage [streamA] = none :=
  ⟨rfl, rfl⟩

/-- C1 (amended): for every non-empty list of streams, each of which validates
as a PDF, whose documents together contribute at least one page, `merge_pdfs`
returns the merged document, its page sequence is the concatenation of the
pages of the input streams in input-list order (no reordering, no
deduplication), and its page count is the sum of the input page counts. -/
theorem merge_concat_in_order (env : PdfEnv) (pdf_files : List ByteStream)
    (hne : pdf_files ≠ [])
    (hval : ∀ s ∈ pdf_files, (validate_pdf env s).2.1 = true)
    (hpages : allPages env pdf_files ≠ []) :
    merge_pdfs env pdf_files = some (allPages env pdf_files) ∧
    (allPages env pdf_files).length =
      (pdf_files.map fun s => (docPages env s).length).sum := by
  refine ⟨?_, allPages_length env pdf_files⟩
  rw [merge_pdfs_eq]
  rw [if_neg (by simpa using hne)]
  rw [if_neg (by simpa using hpages)]

/-- C1 (witness): merging a valid one-page document followed by a valid
two-page document returns pages `[1, 2, 3]`, in input order, of length 3. -/
theorem merge_concat_in_order_witness :
    merge_pdfs envPdfOk [streamA, streamB] = some (allPages envPdfOk [streamA, streamB]) ∧
    (allPages envPdfOk [streamA, streamB]).length =
      ([streamA, streamB].map fun s => (docPages envPdfOk s).length).sum :=
  merge_concat_in_order envPdfOk [streamA, streamB] (by decide) (by decide) (by decide)

/-! ### Claim C2: merge failure condition -/

/-- C2 (counterexample): one candidate survives re-validation (the filter by
the re-validation verdict keeps it), yet `merge_pdfs` returns `None`, because
the surviving document contributes zero pages; so "fails iff zero candidates
survive re-validation" is false on the code. -/
theorem merge_failure_counterexample :
    ([streamA].filter fun s => (validate_pdf envZeroPage s).2.1) = [streamA] ∧
    merge_pdfs envZeroPage [streamA] = none :=
  ⟨rfl, rfl⟩

/-- C2 (amended): `merge_pdfs` re-validates every candidate immediately before
appending and skips — without aborting — every candidate that fails
re-validation (its result is unchanged when the input list is filtered down to
the candidates that pass re-validation), and it returns `None` if and only if
the input list is empty or the surviving candidates contribute zero pages in
total (in particular whenever zero candidates survive re-validation). -/
theorem merge_failure_iff (env : PdfEnv) (pdf_files : List ByteStream) :
    (merge_pdfs env pdf_files = none ↔
      pdf_files = [] ∨ allPages env pdf_files = []) ∧
    merge_pdfs env pdf_files =
      merge_pdfs env (pdf_files.filter fun s => (validate_pdf env s).2.1) := by
  constructor
  · rw [merge_pdfs_eq]
    by_cases h1 : pdf_files.isEmpty
    · rw [if_pos h1]
      simp [List.isEmpty_iff.mp h1]
    · rw [if_neg h1]
      by_cases h2 : (allPages env pdf_files).isEmpty
      · rw [if_pos h2]
        simp [List.isEmpty_iff.mp h2]
      · rw [if_neg h2]
        simp only [List.isEmpty_iff] at h1 h2
        simp [h1, h2]
  · rw [merge_pdfs_eq, merge_pdfs_eq, allPages_filter]
    by_cases h1 : pdf_files.isEmpty
    · have hnil : pdf_files = [] := List.isEmpty_iff.mp h1
      subst hnil
      rfl
    · rw [if_neg h1]
      by_cases hf : (pdf_files.filter fun s => (validate_pdf env s).2.1).isEmpty
      · have hall : allPages env pdf_files = [] := by
          rw [← allPages_filter env pdf_files, List.isEmpty_iff.mp hf]
          rfl
        rw [if_pos hf, if_pos (by simp [hall] : (allPages env pdf_files).isEmpty = true)]
      · rw [if_neg hf]

/-- C2 (witness): the empty input list makes the merge fail. -/
theorem merge_failure_iff_witness :
    merge_pdfs envPdfOk ([] : List ByteStream) = none :=
  (merge_failure_iff envPdfOk []).1.mpr (Or.inl rfl)

/-! ### Claim C3: upload retry policy -/

/-- C3: `upload_to_s3` makes at most 3 transmission attempts in total; its
interaction trace satisfies `traceOk 0`, i.e. every transmission is immediately
preceded by a rewind of the stream to its start, and the wait recorded after
the attempt with 0-based index `i` (attempt number `n = i + 1`) before any
retry is exactly `retry_delay * n` seconds with `retry_delay = 1`, giving the
1s, 2s, 3s schedule; and the function returns `None` exactly when none of the
three attempts succeeds — in particular, after the 3rd failed attempt it
returns `None` rather than retrying further. -/
theorem upload_retry_policy (env : S3Env) (file_data : List Nat) (bucket key : String) :
    numTransmits (upload_to_s3 env file_data bucket key).1 ≤ 3 ∧
    traceOk 0 (upload_to_s3 env file_data bucket key).1 = true ∧
    ((upload_to_s3 env file_data bucket key).2 = none ↔
      ∀ j, j < 3 → env.outcome j ≠ .success) := by
  unfold upload_to_s3
  refine ⟨?_, ?_, ?_⟩
  · simpa [max_retries] using uploadLoop_numTransmits env key max_retries 0
  · exact uploadLoop_traceOk env key max_retries 0 (by simp [max_retries])
  · rw [uploadLoop_none_iff env key max_retries 0 (by simp [max_retries])]
    simp only [max_retries, Nat.zero_add]
    constructor
    · intro hall j hj
      exact hall j (Nat.zero_le j) hj
    · intro hall j _ hj
      exact hall j hj

/-- C3 (witness): with every attempt failing with a non-skew client error, the
upload returns `None`. -/
theorem upload_retry_policy_witness :
    (upload_to_s3 envS3Down [] "bucket" "key").2 = none :=
  (upload_retry_policy envS3Down [] "bucket" "key").2.2.mpr
    (by intro j hj hcon; simp [envS3Down] at hcon)

/-! ### Claim C9: validation is a repeatable function of content -/

/-- C9: `validate_pdf` rewinds the stream to its start before reading, so its
verdict is the same function of the byte content whatever the prior position of
the stream; the stream content is never consumed (it is unchanged by
validation), and re-validating the stream returned by a validation yields the
identical verdict. -/
theorem validate_repeatable (env : PdfEnv) (c : List Nat) (p q : Nat) :
    (validate_pdf env { content := c, pos := p }).2 =
      (validate_pdf env { content := c, pos := q }).2 ∧
    (validate_pdf env { content := c, pos := p }).1.content = c ∧
    (validate_pdf env (validate_pdf env { content := c, pos := p }).1).2 =
      (validate_pdf env { content := c, pos := p }).2 := by
  unfold validate_pdf
  cases hp : env.parse c <;> simp [hp]

/-! ### Claim C10: every failure is a wrapped ValueError, never None -/

/-- C10: `process_and_merge` never returns `None` despite its `Optional[str]`
annotation: every run either returns a key or raises a `ValueError` whose
message begins with "Failed to process and merge PDFs: ". -/
theorem process_total (env : PipelineEnv) (urls : List String) (lead_id : String)
    (is_prod : Bool) :
    (∃ k, process_and_merge env urls lead_id is_prod = .ok k) ∨
    (∃ m, process_and_merge env urls lead_id is_prod = .error (errWrap m)) := by
  unfold process_and_merge
  dsimp only
  by_cases h1 : (pdfFilesOf env urls).isEmpty
  · rw [if_pos h1]
    exact Or.inr ⟨_, rfl⟩
  · rw [if_neg h1]
    cases hm : merge_pdfs env.pdf (pdfFilesOf env urls) with
    | none => exact Or.inr ⟨_, rfl⟩
    | some m =>
      dsimp only
      cases hu : (upload_to_s3 env.s3 m (bucketOf env is_prod) (s3KeyFor lead_id env.now)).2 with
      | none => exact Or.inr ⟨_, rfl⟩
      | some k => exact Or.inl ⟨_, rfl⟩

/-! ### Claim C4: failure taxonomy of the pipeline -/

/-- C4: `process_and_merge` fails exactly on the three fatal conditions — no
reference yields a usable document, the merge produces no document, or the
upload exhausts its retries — carrying a distinct human-readable message for
each cause (wrapped by the outer handler), and in every other case it returns
the storage key. -/
theorem process_failure_taxonomy (env : PipelineEnv) (urls : List String)
    (lead_id : String) (is_prod : Bool) :
    (process_and_merge env urls lead_id is_prod =
        .error (errWrap "No valid files could be processed") ↔
      pdfFilesOf env urls = []) ∧
    (process_and_merge env urls lead_id is_prod =
        .error (errWrap "Failed to merge PDFs") ↔
      pdfFilesOf env urls ≠ [] ∧ merge_pdfs env.pdf (pdfFilesOf env urls) = none) ∧
    (process_and_merge env urls lead_id is_prod =
        .error (errWrap "Failed to upload to S3 after multiple attempts") ↔
      ∃ m, merge_pdfs env.pdf (pdfFilesOf env urls) = some m ∧
        (upload_to_s3 env.s3 m (bucketOf env is_prod) (s3KeyFor lead_id env.now)).2 = none) ∧
    (process_and_merge env urls lead_id is_prod = .ok (s3KeyFor lead_id env.now) ↔
      ∃ m, merge_pdfs env.pdf (pdfFilesOf env urls) = some m ∧
        (upload_to_s3 env.s3 m (bucketOf env is_prod) (s3KeyFor lead_id env.now)).2 ≠ none) ∧
    (∀ e, process_and_merge env urls lead_id is_prod = .error e →
      e = errWrap "No valid files could be processed" ∨
      e = errWrap "Failed to merge PDFs" ∨
      e = errWrap "Failed to upload to S3 after multiple attempts") ∧
    (errWrap "No valid files could be processed" ≠ errWrap "Failed to merge PDFs" ∧
      errWrap "No valid files could be processed" ≠
        errWrap "Failed to upload to S3 after multiple attempts" ∧
      errWrap "Failed to merge PDFs" ≠
        errWrap "Failed to upload to S3 after multiple attempts") := by
  have d12 : errWrap "No valid files could be processed" ≠
      errWrap "Failed to merge PDFs" := by decide
  have d13 : errWrap "No valid files could be processed" ≠
      errWrap "Failed to upload to S3 after multiple attempts" := by decide
  have d23 : errWrap "Failed to merge PDFs" ≠
      errWrap "Failed to upload to S3 after multiple attempts" := by decide
  by_cases h1 : (pdfFilesOf env urls).isEmpty
  · have hnil : pdfFilesOf env urls = [] := List.isEmpty_iff.mp h1
    have hP : process_and_merge env urls lead_id is_prod =
        .error (errWrap "No valid files could be processed") := by
      unfold process_and_merge
      dsimp only
      rw [if_pos h1]
    have hmergeNil : merge_pdfs env.pdf ([] : List ByteStream) = none := rfl
    refine ⟨?_, ?_, ?_, ?_, ?_, d12, d13, d23⟩
    · simp [hP, hnil]
    · simp [hP, hnil, d12]
    · simp [hP, hnil, hmergeNil, d13]
    · simp [hP, hnil, hmergeNil]
    · intro e he
      rw [hP] at he
      injection he with hh
      exact Or.inl hh.symm
  · have hne : pdfFilesOf env urls ≠ [] := by
      intro hcon
      exact h1 (by simp [hcon])
    cases hm : merge_pdfs env.pdf (pdfFilesOf env urls) with
    | none =>
      have hP : process_and_merge env urls lead_id is_prod =
          .error (errWrap "Failed to merge PDFs") := by
        unfold process_and_merge
        dsimp only
        rw [if_neg h1]
        simp only [hm]
      refine ⟨?_, ?_, ?_, ?_, ?_, d12, d13, d23⟩
      · simp [hP, hne, Ne.symm d12]
      · simp [hP, hne, hm]
      · simp [hP, hm, d23]
      · simp [hP, hm]
      · intro e he
        rw [hP] at he
        injection he with hh
        exact Or.inr (Or.inl hh.symm)
    | some m =>
      cases hu : (upload_to_s3 env.s3 m (bucketOf env is_prod) (s3KeyFor lead_id env.now)).2 with
      | none =>
        have hP : process_and_merge env urls lead_id is_prod =
            .error (errWrap "Failed to upload to S3 after multiple attempts") := by
          unfold process_and_merge
          dsimp only
          rw [if_neg h1]
          simp only [hm]
          simp only [hu]
        refine ⟨?_, ?_, ?_, ?_, ?_, d12, d13, d23⟩
        · simp [hP, hne, Ne.symm d13]
        · simp [hP, hm, Ne.symm d23]
        · simp [hP, hm, hu]
        · simp [hP, hm, hu]
        · intro e he
          rw [hP] at he
          injection he with hh
          exact Or.inr (Or.inr hh.symm)
      | some k =>
        have hP : process_and_merge env urls lead_id is_prod =
            .ok (s3KeyFor lead_id env.now) := by
          unfold process_and_merge
          dsimp only
          rw [if_neg h1]
          simp only [hm]
          simp only [hu]
        refine ⟨?_, ?_, ?_, ?_, ?_, d12, d13, d23⟩
        · simp [hP, hne]
        · simp [hP, hm]
        · simp [hP, hm, hu]
        · simp [hP, hm, hu]
        · intro e he
          rw [hP] at he
          exact absurd he (by simp)

/-- C4 (witness): when no reference yields a usable document the pipeline
raises the wrapped "No valid files could be processed" error. -/
theorem process_failure_taxonomy_witness :
    process_and_merge envPipeNoFiles ["u"] "LEAD" false =
      .error (errWrap "No valid files could be processed") :=
  (process_failure_taxonomy envPipeNoFiles ["u"] "LEAD" false).1.mpr rfl

/-! ### Claim C5: per-reference drop conditions -/

/-- C5 (counterexample): a response whose HTTP status is 300 — a redirection
status, not a success status — is not dropped: `raise_for_status` only raises
for statuses 400-599, so the reference proceeds to content-type
classification, validates, and is returned as a usable document. -/
theorem download_status_counterexample :
    envHttp300.get "u" = .response 300 "application/pdf" pdfBytes ∧
    ¬ (200 ≤ 300 ∧ 300 ≤ 299) ∧
    download_and_convert_file envHttp300 envPdfOk envImgNone "u" = some streamA := by
  refine ⟨rfl, by omega, ?_⟩
  decide

/-- C5 (amended): `download_and_convert_file` returns `None` — dropping the
reference without raising — whenever the HTTP request fails with a transport
error, the response carries an HTTP error status (400-599; statuses outside
that band, including non-success 1xx/3xx codes, instead proceed to
classification), or the lowercased declared content type contains none of the
substrings `application/pdf`, `image/jpeg`, `image/png`, `image/gif`; and a
dropped reference alone never causes the job to fail with the "no valid files"
error while at least one other reference remains usable. -/
theorem download_drop_conditions (henv : HttpEnv) (penv : PdfEnv) (ienv : ImageEnv)
    (url : String) :
    (∀ m, henv.get url = .transportError m →
      download_and_convert_file henv penv ienv url = none) ∧
    (∀ st ct body, henv.get url = .response st ct body → 400 ≤ st → st < 600 →
      download_and_convert_file henv penv ienv url = none) ∧
    (∀ st ct body, henv.get url = .response st ct body →
      containsSub "application/pdf".data (asciiLower ct) = false →
      (imageTypes.any fun t => containsSub t.data (asciiLower ct)) = false →
      download_and_convert_file henv penv ienv url = none) ∧
    (∀ (env : PipelineEnv) (urls : List String) (lead_id : String) (is_prod : Bool),
      (∃ u ∈ urls, download_and_convert_file env.http env.pdf env.img u ≠ none) →
      process_and_merge env urls lead_id is_prod ≠
        .error (errWrap "No valid files could be processed")) := by
  refine ⟨?_, ?_, ?_, ?_⟩
  · intro m hm
    simp [download_and_convert_file, hm]
  · intro st ct body hresp h4 h6
    unfold download_and_convert_file
    rw [hresp]
    dsimp only
    rw [if_pos ⟨h4, h6⟩]
  · intro st ct body hresp hpdf himg
    unfold download_and_convert_file
    rw [hresp]
    dsimp only
    by_cases hst : 400 ≤ st ∧ st < 600
    · rw [if_pos hst]
    · rw [if_neg hst]
      simp [hpdf, himg]
  · intro env urls lead_id is_prod husable
    obtain ⟨u, hu, hune⟩ := husable
    have hfil : pdfFilesOf env urls ≠ [] := by
      intro h0
      unfold pdfFilesOf at h0
      rw [List.filterMap_eq_nil_iff] at h0
      exact hune (h0 u hu)
    unfold process_and_merge
    dsimp only
    rw [if_neg (by simpa using hfil)]
    cases hm : merge_pdfs env.pdf (pdfFilesOf env urls) with
    | none =>
      intro hcon
      injection hcon with hh
      exact absurd hh (by decide)
    | some m =>
      dsimp only
      cases hu2 : (upload_to_s3 env.s3 m (bucketOf env is_prod) (s3KeyFor lead_id env.now)).2 with
      | none =>
        intro hcon
        injection hcon with hh
        exact absurd hh (by decide)
      | some k =>
        intro hcon
        exact absurd hcon (by simp)

/-- C5 (witness): a transport-level failure makes the reference drop to
`None`. -/
theorem download_drop_conditions_witness :
    download_and_convert_file envHttpDown envPdfOk envImgNone "u" = none :=
  (download_drop_conditions envHttpDown envPdfOk envImgNone "u").1 "connection refused" rfl

/-! ### Claim C6: image layout bounds and centering -/

/-- C6: for every source image of width `w ≥ 1` and height `h ≥ 1`, the scaled
dimensions computed by `convert_image_to_pdf` coincide with the fit rule of the spec
(`specFitDims`, written with the exact rational aspect ratio), satisfy
`new_width ≤ 2480` and `new_height ≤ 3508`, and the image is pasted at offsets
`((2480 − new_width) // 2, (3508 − new_height) // 2)`, both non-negative;
whenever decoding yields `(w, h)`, `convert_image_to_pdf` produces exactly the
page encoded with these dimensions and offsets. -/
theorem convert_image_layout (w h : Nat) (hw : 1 ≤ w) (hh : 1 ≤ h) :
    (fitDims w h).1 ≤ A4_WIDTH ∧ (fitDims w h).2 ≤ A4_HEIGHT ∧
    fitDims w h = specFitDims w h ∧
    pasteOffsets (fitDims w h).1 (fitDims w h).2 =
      (((A4_WIDTH : Int) - ((fitDims w h).1 : Int)) / 2,
        ((A4_HEIGHT : Int) - ((fitDims w h).2 : Int)) / 2) ∧
    0 ≤ (pasteOffsets (fitDims w h).1 (fitDims w h).2).1 ∧
    0 ≤ (pasteOffsets (fitDims w h).1 (fitDims w h).2).2 ∧
    ∀ (ienv : ImageEnv) (s : ByteStream), ienv.decode s.content = some (w, h) →
      convert_image_to_pdf ienv s =
        some { content := ienv.encodePdf s.content (fitDims w h)
                 (pasteOffsets (fitDims w h).1 (fitDims w h).2),
               pos := 0 } := by
  obtain ⟨hb1, hb2⟩ := fitDims_bounds w h hw hh
  refine ⟨hb1, hb2, (specFitDims_eq_fitDims w h hw hh).symm, rfl, ?_, ?_, ?_⟩
  · have : ((fitDims w h).1 : Int) ≤ (A4_WIDTH : Int) := by exact_mod_cast hb1
    have h0 : (0 : Int) ≤ (A4_WIDTH : Int) - ((fitDims w h).1 : Int) := by omega
    exact Int.ediv_nonneg h0 (by omega)
  · have : ((fitDims w h).2 : Int) ≤ (A4_HEIGHT : Int) := by exact_mod_cast hb2
    have h0 : (0 : Int) ≤ (A4_HEIGHT : Int) - ((fitDims w h).2 : Int) := by omega
    exact Int.ediv_nonneg h0 (by omega)
  · intro ienv s hdec
    unfold convert_image_to_pdf
    rw [hdec]

/-- C6 (witness): a 4000×2000 landscape source scales to 2480×1240, within the
canvas, and conversion emits the encoded page. -/
theorem convert_image_layout_witness :
    (fitDims 4000 2000).1 ≤ A4_WIDTH ∧ (fitDims 4000 2000).2 ≤ A4_HEIGHT ∧
    0 ≤ (pasteOffsets (fitDims 4000 2000).1 (fitDims 4000 2000).2).1 := by
  have h := convert_image_layout 4000 2000 (by omega) (by omega)
  exact ⟨h.1, h.2.1, h.2.2.2.2.1⟩

/-! ### Claim C7: aspect-ratio preservation -/

/-- C7 (counterexample): a 2481×2480 source scales to 2480×2479, and
`2480 / 2479 ≠ 2481 / 2480` as exact rationals — the `int(.)` truncation makes
exact aspect-ratio preservation fail. -/
theorem fitDims_ratio_counterexample :
    fitDims 2481 2480 = (2480, 2479) ∧
    ((2480 : ℚ) / (2479 : ℚ) ≠ (2481 : ℚ) / (2480 : ℚ)) := by
  constructor
  · decide
  · intro hcon
    rw [div_eq_div_iff (by norm_num) (by norm_num)] at hcon
    norm_num at hcon

/-- C7 (amended): the scaled dimensions preserve the aspect ratio only up to
the floor rounding of `int(.)`: in every branch one of the two output
dimensions is derived from the other exactly as the floor of the
aspect-preserving value (`nh = ⌊nw·h/w⌋` or `nw = ⌊nh·w/h⌋`), so the ratio is
preserved to within one pixel of rounding, with exact equality only when the
division is exact. -/
theorem fitDims_ratio_amended (w h : Nat) (hw : 1 ≤ w) (hh : 1 ≤ h) :
    (fitDims w h).2 = (fitDims w h).1 * h / w ∨
    (fitDims w h).1 = (fitDims w h).2 * w / h := by
  unfold fitDims
  by_cases hlt : h < w
  · rw [if_pos hlt]
    by_cases hcl : A4_HEIGHT < min A4_WIDTH w * h / w
    · rw [if_pos hcl]
      right
      rfl
    · rw [if_neg hcl]
      left
      rfl
  · rw [if_neg hlt]
    by_cases hcl : A4_WIDTH < min A4_HEIGHT h * w / h
    · rw [if_pos hcl]
      left
      rfl
    · rw [if_neg hcl]
      right
      rfl

/-- C7 (amended, witness): at 4000×2000 the derived height is exactly
`⌊2480·2000/4000⌋ = 1240`. -/
theorem fitDims_ratio_amended_witness :
    (fitDims 4000 2000).2 = (fitDims 4000 2000).1 * 2000 / 4000 ∨
    (fitDims 4000 2000).1 = (fitDims 4000 2000).2 * 4000 / 2000 :=
  fitDims_ratio_amended 4000 2000 (by omega) (by omega)

/-! ### Claim C8: storage-key format -/

/-- C8: on success `process_and_merge` returns exactly
`{lead_id}/merged_pdf/merged_document_{timestamp}.pdf` with the timestamp
produced by `strftime("%Y%m%d_%H%M%S")` from the wall clock at one-second
resolution (for any in-range date this string has the 15-character
`YYYYMMDD_HHMMSS` shape), and `upload_to_s3` returns its key argument
unchanged whenever the upload succeeds. -/
theorem success_key_format (env : PipelineEnv) (urls : List String) (lead_id : String)
    (is_prod : Bool) :
    (∀ k, process_and_merge env urls lead_id is_prod = .ok k →
      k = lead_id ++ "/merged_pdf/merged_document_" ++ formatTimestamp env.now ++ ".pdf") ∧
    (1000 ≤ env.now.year → env.now.year < 10000 → env.now.month < 100 →
      env.now.day < 100 → env.now.hour < 100 → env.now.minute < 100 →
      env.now.second < 100 → (formatTimestamp env.now).length = 15) ∧
    (∀ (senv : S3Env) (fd : List Nat) (bucket key k2 : String),
      (upload_to_s3 senv fd bucket key).2 = some k2 → k2 = key) := by
  refine ⟨?_, ?_, ?_⟩
  · intro k hk
    unfold process_and_merge at hk
    dsimp only at hk
    by_cases h1 : (pdfFilesOf env urls).isEmpty
    · rw [if_pos h1] at hk
      simp at hk
    · rw [if_neg h1] at hk
      cases hm : merge_pdfs env.pdf (pdfFilesOf env urls) with
      | none =>
        simp only [hm] at hk
        simp at hk
      | some m =>
        simp only [hm] at hk
        cases hu : (upload_to_s3 env.s3 m (bucketOf env is_prod) (s3KeyFor lead_id env.now)).2 with
        | none =>
          simp only [hu] at hk
          simp at hk
        | some k2 =>
          simp only [hu] at hk
          injection hk with hh
          rw [← hh]
          rfl
  · intro hy1 hy2 hmo hd hhh hmi hs
    exact formatTimestamp_length env.now hy1 hy2 hmo hd hhh hmi hs
  · intro senv fd bucket key k2 hk2
    exact uploadLoop_key senv key max_retries 0 k2 hk2

/-- C8 (witness): the fully-succeeding pipeline returns the key
`LEAD/merged_pdf/merged_document_20260102_030405.pdf`, whose timestamp has the
15-character shape. -/
theorem success_key_format_witness :
    "LEAD/merged_pdf/merged_document_20260102_030405.pdf" =
      "LEAD" ++ "/merged_pdf/merged_document_" ++ formatTimestamp nowX ++ ".pdf" ∧
    (formatTimestamp nowX).length = 15 := by
  have h := success_key_format envPipeOk ["u"] "LEAD" false
  refine ⟨h.1 "LEAD/merged_pdf/merged_document_20260102_030405.pdf" (by rfl), ?_⟩
  exact h.2.1 (by decide) (by decide) (by decide) (by decide) (by decide) (by decide) (by decide)

end PDFFusion
